import Mathlib

/-!
# Verification of the SYNTHI generative engine (`src/synthi/index.js`)

Shallow embedding of the signal-generation and feedback-stability engine:
the deterministic parameter sampler (`xmur3` / `mulberry32` / `makeParams`),
the bounded nonlinear 2D signal field (`xyAt`), the drift integrator
(`stepDrift`), the audio feedback-delay gain computations
(`startAudio` / `setFeedback` / `setMute` / `setFreqMul`), the visual decay
step of `tick`, and the keyboard control handler.

JS `Number` arithmetic on continuous quantities is modelled over `ℝ`;
the 32-bit integer hashing pipeline is modelled over `ℕ` with explicit
`% 2^32` reduction (JS `Math.imul`, `^`, `|`, `<<`, `>>>` all act on the
32-bit pattern, which agrees with unsigned arithmetic modulo `2^32`).
-/

noncomputable section

namespace Synthi

/-- JS `TAU = Math.PI * 2` (line 19 of the source). -/
def TAU : ℝ := Real.pi * 2

/-- JS `clamp = (x, a, b) => Math.max(a, Math.min(b, x))` (line 22). -/
def clamp (x a b : ℝ) : ℝ := max a (min b x)

/-- JS `frac = (x) => x - Math.floor(x)` (line 23). -/
def frac (x : ℝ) : ℝ := x - (⌊x⌋ : ℝ)

/-- JS `triFromPhase = (p) => 1 - 4 * Math.abs(p - 0.5)` (line 24). -/
def triFromPhase (p : ℝ) : ℝ := 1 - 4 * |p - 0.5|

/-! ## 32-bit integer hashing pipeline (`xmur3`, `mulberry32`) -/

/-- JS `Math.imul`: 32-bit integer multiply; on unsigned patterns this is
multiplication modulo `2^32`. -/
def imul (a b : ℕ) : ℕ := (a * b) % 2 ^ 32

/-- State transition of `mulberry32`: `seed += 0x6D2B79F5` (line 41),
on the 32-bit pattern. -/
def mb32next (s : ℕ) : ℕ := (s + 0x6D2B79F5) % 2 ^ 32

/-- Output mixing of `mulberry32` (lines 42–44) applied to the
already-incremented state `s`:
`t = imul(t ^ (t >>> 15), t | 1); t ^= t + imul(t ^ (t >>> 7), t | 61);
return ((t ^ (t >>> 14)) >>> 0)`.  The intermediate sum `t + imul(...)` is a
plain JS addition whose result is reduced to 32 bits by the `^=`. -/
def mb32out (s : ℕ) : ℕ :=
  let t1 := imul (Nat.xor s (s >>> 15)) (s ||| 1)
  let t2 := Nat.xor t1 ((t1 + imul (Nat.xor t1 (t1 >>> 7)) (t1 ||| 61)) % 2 ^ 32)
  Nat.xor t2 (t2 >>> 14)

/-- One call of the `mulberry32(seed)` closure: returns the uniform draw in
`[0,1)` (as an exact rational, `out / 4294967296`) together with the new
internal state. -/
def draw (s : ℕ) : ℚ × ℕ :=
  let s2 := mb32next s
  ((mb32out s2 : ℚ) / 4294967296, s2)

/-- UTF-16 code units of a string, as read by JS `charCodeAt` / `.length`. -/
def codeUnits (s : String) : List ℕ :=
  s.toList.flatMap (fun c =>
    let n := c.toNat
    if n < 0x10000 then [n]
    else [0xD800 + (n - 0x10000) / 0x400, 0xDC00 + (n - 0x10000) % 0x400])

/-- The string-mixing loop of `xmur3` (lines 26–31):
`h = 1779033703 ^ str.length`, then per code unit
`h = imul(h ^ c, 3432918353); h = (h << 13) | (h >>> 19)`. -/
def xmur3Init (cs : List ℕ) : ℕ :=
  cs.foldl
    (fun h c =>
      let h1 := imul (Nat.xor h c) 3432918353
      ((h1 <<< 13) % 2 ^ 32) ||| (h1 >>> 19))
    (Nat.xor 1779033703 cs.length)

/-- One call of the closure returned by `xmur3` (lines 32–37):
`h = imul(h ^ (h >>> 16), 2246822507); h = imul(h ^ (h >>> 13), 3266489909);
h ^= h >>> 16; return h >>> 0`. -/
def xmur3Next (h : ℕ) : ℕ :=
  let h1 := imul (Nat.xor h (h >>> 16)) 2246822507
  let h2 := imul (Nat.xor h1 (h1 >>> 13)) 3266489909
  Nat.xor h2 (h2 >>> 16)

/-- Composition `mulberry32(xmur3(s)())` as in `getRand` (line 101): the 32-bit seed fed
to `mulberry32` is the first output of the `xmur3` hash of the seed string. -/
def seedFromString (s : String) : ℕ := xmur3Next (xmur3Init (codeUnits s))

/-- The first `n` uniform draws of the generator seeded from string `s`. -/
def drawSeq (s0 : ℕ) : ℕ → List ℚ
  | 0 => []
  | n + 1 =>
    let d := draw s0
    d.1 :: drawSeq d.2 n

/-- The first `n` draws produced by one Parameter Sampler invocation on the
seed string `s`. -/
def drawsFromString (s : String) (n : ℕ) : List ℚ := drawSeq (seedFromString s) n

/-! ## Parameter record (`makeParams`, lines 144–201) -/

/-- JS `logUniform(rng, min, max)` (lines 47–50) with the consumed draw `r`
passed explicitly: `exp(log min + (log max - log min) * r)`. -/
def logUniform (r mn mx : ℝ) : ℝ :=
  Real.exp (Real.log mn + (Real.log mx - Real.log mn) * r)

/-- The parameter record returned by `makeParams` (lines 148–200), together
with the `warpEff` field that `effective` (line 641) adds before the record
reaches `xyAt`; on the bare `makeParams` record the field is absent in JS
(`undefined > 0` is false), modelled as `0`. -/
structure Params where
  rare : Bool
  f_vis : ℝ
  phi : ℝ
  phiOffset : ℝ
  xSin : ℝ
  ySin : ℝ
  xTri : ℝ
  yTri : ℝ
  padFrac : ℝ
  gain : ℝ
  rot : ℝ
  shear : ℝ
  driftCps : ℝ
  pmHz : ℝ
  pmDepth : ℝ
  detune : ℝ
  osc3Mix : ℝ
  osc3Phi : ℝ
  osc4Mul : ℝ
  osc4Mix : ℝ
  osc4Phi : ℝ
  pixel : ℕ
  fbScale : ℝ
  fbRotate : ℝ
  fbShift : ℝ
  ampRate : ℝ
  densRate : ℝ
  phiSpreadBase : ℝ
  warpBase : ℝ
  warpRate : ℝ
  warpPhase : ℝ
  a : ℝ
  b : ℝ
  t1 : ℝ
  t2 : ℝ
  t3 : ℝ
  fb1 : ℝ
  fb2 : ℝ
  fb3 : ℝ
  warpEff : ℝ

/-- JS `makeParams(rng)` (lines 144–201): consumes uniform draws from the
`mulberry32` stream in the JS evaluation order (object fields are evaluated
top to bottom; `rare` and `f_vis` are computed first, `detune` consumes two
draws) and returns the record together with the final RNG state. -/
def makeParams (s0 : ℕ) : Params × ℕ :=
  let d1 := draw s0
  let rare : Bool := decide (d1.1 < 0.12)
  let d2 := draw d1.2
  let f_vis := if rare then logUniform (d2.1 : ℝ) 4200 7800
               else logUniform (d2.1 : ℝ) 900 5200
  let d3 := draw d2.2        -- phi
  let d4 := draw d3.2        -- xTri
  let d5 := draw d4.2        -- yTri
  let d6 := draw d5.2        -- rot
  let d7 := draw d6.2        -- shear
  let d8 := draw d7.2        -- driftCps
  let d9 := draw d8.2        -- pmHz
  let d10 := draw d9.2       -- pmDepth
  let d11 := draw d10.2      -- detune sign
  let d12 := draw d11.2      -- detune magnitude
  let d13 := draw d12.2      -- osc3Mix
  let d14 := draw d13.2      -- osc3Phi
  let d15 := draw d14.2      -- osc4Mul
  let d16 := draw d15.2      -- osc4Mix
  let d17 := draw d16.2      -- osc4Phi
  let d18 := draw d17.2      -- pixel
  let d19 := draw d18.2      -- fbScale
  let d20 := draw d19.2      -- fbRotate
  let d21 := draw d20.2      -- fbShift
  let d22 := draw d21.2      -- ampRate
  let d23 := draw d22.2      -- densRate
  let d24 := draw d23.2      -- phiSpreadBase
  let d25 := draw d24.2      -- warpBase
  let d26 := draw d25.2      -- warpRate
  let d27 := draw d26.2      -- warpPhase
  let d28 := draw d27.2      -- t1
  let d29 := draw d28.2      -- t2
  let d30 := draw d29.2      -- t3
  let d31 := draw d30.2      -- fb1
  let d32 := draw d31.2      -- fb2
  let d33 := draw d32.2      -- fb3
  (Params.mk
    rare
    f_vis
    (d3.1 : ℝ)
    0.25
    0.95
    0.95
    (0.95 + (d4.1 : ℝ) * 0.65)
    (0.95 + (d5.1 : ℝ) * 0.65)
    0.10
    0.92
    (((d6.1 : ℝ) - 0.5) * 0.35)
    (((d7.1 : ℝ) - 0.5) * 0.22)
    (0.0007 + (d8.1 : ℝ) * 0.0006)
    (0.04 + (d9.1 : ℝ) * 0.14)
    (0.001 + (d10.1 : ℝ) * 0.006)
    ((if d11.1 < 0.5 then (-1 : ℝ) else 1) * (0.0004 + (d12.1 : ℝ) * 0.0012))
    (0.10 + (d13.1 : ℝ) * 0.22)
    (d14.1 : ℝ)
    (0.10 + (d15.1 : ℝ) * 0.22)
    (0.08 + (d16.1 : ℝ) * 0.16)
    (d17.1 : ℝ)
    (if d18.1 < 0.5 then 2 else 3)
    (1.001 + (d19.1 : ℝ) * 0.004)
    (((d20.1 : ℝ) - 0.5) * 0.012)
    (((d21.1 : ℝ) - 0.5) * 2.8)
    (0.018 + (d22.1 : ℝ) * 0.060)
    (0.012 + (d23.1 : ℝ) * 0.050)
    (0.010 + (d24.1 : ℝ) * 0.012)
    (0.06 + (d25.1 : ℝ) * 0.18)
    (0.03 + (d26.1 : ℝ) * 0.11)
    (d27.1 : ℝ)
    0.70
    0.40
    ((2 + (d28.1 : ℝ) * 7) / 1000)
    ((10 + (d29.1 : ℝ) * 30) / 1000)
    ((45 + (d30.1 : ℝ) * 150) / 1000)
    (0.24 + (d31.1 : ℝ) * 0.26)
    (0.34 + (d32.1 : ℝ) * 0.30)
    (0.48 + (d33.1 : ℝ) * 0.36)
    0,
   d33.2)

/-- The parameter record produced by one Parameter Sampler invocation on the
seed string `s` (as in `reroll` / initialisation: `makeParams(getRand())`). -/
def paramsFromSeed (s : String) : Params := (makeParams (seedFromString s)).1

/-! ## Signal field (`xyAt`, lines 211–251) -/

/-- JS `applyLinear(x, y, p)` (lines 203–209): rotate by `p.rot`, then
`xr = xr + p.shear * yr`. -/
def applyLinear (x y : ℝ) (p : Params) : ℝ × ℝ :=
  let c := Real.cos p.rot
  let s := Real.sin p.rot
  let xr := x * c - y * s
  let yr := x * s + y * c
  (xr + p.shear * yr, yr)

/-- The base layer's x oscillator argument (cycles): `f * t + phi`
(lines 216 and 221 of the source, with `f = p.f_vis` and `phi` the
phase-modulated phase). -/
def baseArgX (p : Params) (phi t : ℝ) : ℝ := p.f_vis * t + phi

/-- The base layer's y oscillator argument (cycles):
`2 * f * t + (phi + p.phiOffset)` (lines 217 and 222). -/
def baseArgY (p : Params) (phi t : ℝ) : ℝ := 2 * p.f_vis * t + (phi + p.phiOffset)

/-- The cross-warp step of `xyAt` (lines 239–246), extracted:
`x = x0 + w * y0; y = y0 - w * x0; x = tanh(0.92 * x); y = tanh(0.92 * y)`. -/
def warpStep (w x0 y0 : ℝ) : ℝ × ℝ :=
  (Real.tanh (0.92 * (x0 + w * y0)), Real.tanh (0.92 * (y0 - w * x0)))

/-- The cross-warp formula exactly as the specification words it
(for comparison with `warpStep`): `x' = tanh(x + w·y)`, `y' = tanh(y − w·x)`. -/
def warpStepSpec (w x0 y0 : ℝ) : ℝ × ℝ :=
  (Real.tanh (x0 + w * y0), Real.tanh (y0 - w * x0))

/-- Lines 212–237 of `xyAt`: phase modulation, base layer (sine + triangle
at `f` and `2f`), detail layer near `2f` with detune, fill layer at
`f * osc4Mul`, then the linear transform — the coordinates just before the
optional cross-warp. -/
def preWarp (t : ℝ) (p : Params) (phiCycles nowSec : ℝ) : ℝ × ℝ :=
  let f := p.f_vis
  let pm := p.pmDepth * Real.sin (TAU * (p.pmHz * nowSec))
  let phi := phiCycles + pm
  let px := TAU * baseArgX p phi t
  let py := TAU * baseArgY p phi t
  let sx := Real.sin px
  let sy := Real.sin py
  let tx := triFromPhase (frac (baseArgX p phi t))
  let ty := triFromPhase (frac (baseArgY p phi t))
  let x1 := p.xSin * sx + p.xTri * tx
  let y1 := p.ySin * sy + p.yTri * ty
  let f3 := (2 * f) * (1 + p.detune)
  let phi3 := phiCycles + p.osc3Phi + pm * 0.35
  let x2 := x1 + p.osc3Mix * Real.sin (TAU * (f3 * t + phi3))
  let y2 := y1 + p.osc3Mix * Real.sin (TAU * (2 * f3 * t + (phi3 + p.phiOffset)))
  let f4 := f * p.osc4Mul
  let phi4 := phiCycles + p.osc4Phi + pm * 0.15
  let x3 := x2 + p.osc4Mix *
    (Real.sin (TAU * (f4 * t + phi4)) + 0.6 * triFromPhase (frac (f4 * t + phi4)))
  let y3 := y2 + p.osc4Mix *
    (Real.sin (TAU * (2 * f4 * t + (phi4 + p.phiOffset))) +
      0.6 * triFromPhase (frac (2 * f4 * t + (phi4 + p.phiOffset))))
  applyLinear x3 y3 p

/-- JS `xyAt(t, p, phiCycles, nowSec)` (lines 211–251): the layered field of
`preWarp`, then the optional cross-warp (`if (p.warpEff > 0)`, lines
239–246), then the final tanh clamp (lines 248–249). -/
def xyAt (t : ℝ) (p : Params) (phiCycles nowSec : ℝ) : ℝ × ℝ :=
  let xy := preWarp t p phiCycles nowSec
  let xw := if 0 < p.warpEff then warpStep p.warpEff xy.1 xy.2 else xy
  (Real.tanh (0.78 * xw.1), Real.tanh (0.78 * xw.2))

/-! ## Facts about `Real.tanh` -/

/-- Identity `tanh x = 1 - 2 / (exp (2x) + 1)`. -/
lemma tanh_eq_one_sub (x : ℝ) :
    Real.tanh x = 1 - 2 / (Real.exp (2 * x) + 1) := by
  have hx : Real.exp x > 0 := Real.exp_pos x
  have hnx : Real.exp (-x) > 0 := Real.exp_pos (-x)
  have hmul : Real.exp x * Real.exp (-x) = 1 := by
    rw [← Real.exp_add]; simp
  have h2x : Real.exp (2 * x) = Real.exp x * Real.exp x := by
    rw [← Real.exp_add]; ring_nf
  rw [Real.tanh_eq_sinh_div_cosh, Real.sinh_eq, Real.cosh_eq]
  have hden : Real.exp x + Real.exp (-x) ≠ 0 := by positivity
  have hden2 : Real.exp (2 * x) + 1 ≠ 0 := by positivity
  field_simp
  nlinarith [hmul, h2x]

/-- The function `tanh` is strictly increasing. -/
lemma tanh_lt_tanh_of_lt {x y : ℝ} (h : x < y) : Real.tanh x < Real.tanh y := by
  rw [tanh_eq_one_sub, tanh_eq_one_sub]
  have hx : (0 : ℝ) < Real.exp (2 * x) + 1 := by positivity
  have hxy : Real.exp (2 * x) + 1 < Real.exp (2 * y) + 1 := by
    have := Real.exp_lt_exp.mpr (by linarith : 2 * x < 2 * y)
    linarith
  have := div_lt_div_of_pos_left (by norm_num : (0 : ℝ) < 2) hx hxy
  linarith

/-- Bound `|tanh x| ≤ 1` (in fact strictly below 1). -/
lemma abs_tanh_le_one (x : ℝ) : |Real.tanh x| ≤ 1 := by
  rw [tanh_eq_one_sub, abs_le]
  have he : (0 : ℝ) < Real.exp (2 * x) := Real.exp_pos _
  have h1 : (0 : ℝ) < 2 / (Real.exp (2 * x) + 1) := by positivity
  have h2 : 2 / (Real.exp (2 * x) + 1) ≤ 2 := by
    rw [div_le_iff₀ (by positivity)]
    nlinarith
  constructor <;> linarith

/-! ## Drift integrator (`stepDrift`, lines 610–617) -/

/-- Truncation toward zero, as used by the JS `%` operator. -/
def jsTrunc (x : ℝ) : ℤ := if 0 ≤ x then ⌊x⌋ else ⌈x⌉

/-- JS remainder operator: `x % y = x - y * trunc(x / y)` (sign follows the
dividend). -/
def jsMod (x y : ℝ) : ℝ := x - y * (jsTrunc (x / y) : ℝ)

/-- The mutable state read and written by `stepDrift`: `driftPhase`,
`lastT` (milliseconds) and the `driftOn` toggle (lines 588, 610–611). -/
structure DriftState where
  driftPhase : ℝ
  lastT : ℝ
  driftOn : Bool

/-- JS `stepDrift(now)` (lines 612–617):
`dt = Math.min(0.05, Math.max(0, (now - lastT) / 1000)); lastT = now;
if (!driftOn) return; driftPhase = (driftPhase + base.driftCps * dt) % 1`.
`cps` is `base.driftCps`. -/
def stepDrift (cps now : ℝ) (st : DriftState) : DriftState :=
  let dt := min 0.05 (max 0 ((now - st.lastT) / 1000))
  if st.driftOn then
    { driftPhase := jsMod (st.driftPhase + cps * dt) 1, lastT := now,
      driftOn := st.driftOn }
  else
    { st with lastT := now }

/-! ## Audio feedback-delay network gains (lines 466–470, 504–524) -/

/-- The live feedback scalar `s = fbOn ? clamp(fbMul, 0, 1.2) : 0.0`
(line 466 in `startAudio`, line 520 in `setFeedback`). -/
def fbScalar (fbOn : Bool) (fbMul : ℝ) : ℝ :=
  if fbOn then clamp fbMul 0 1.2 else 0

/-- A delay stage's feedback gain `clamp(fb_i * s, 0, 0.95)`
(lines 468–470 and 521–523). -/
def stageGain (fbi s : ℝ) : ℝ := clamp (fbi * s) 0 0.95

/-- The three stage feedback gains set when the audio graph is constructed
(`startAudio`, lines 466–470). -/
def startGains (p : Params) (fbOn : Bool) (fbMul : ℝ) : ℝ × ℝ × ℝ :=
  let s := fbScalar fbOn fbMul
  (stageGain p.fb1 s, stageGain p.fb2 s, stageGain p.fb3 s)

/-- The three stage feedback gain targets applied by a live `setFeedback`
update (lines 519–524). -/
def setFeedbackGains (p : Params) (fbOn : Bool) (fbMul : ℝ) : ℝ × ℝ × ℝ :=
  let s := fbScalar fbOn fbMul
  (stageGain p.fb1 s, stageGain p.fb2 s, stageGain p.fb3 s)

/-- How a live audio update writes an `AudioParam`: either a direct value
assignment (`param.value = v`) or a smoothed exponential ramp
(`param.setTargetAtTime(target, now, timeConstant)`). -/
inductive ParamChange
  | assign (v : ℝ)
  | setTargetAtTime (target timeConstant : ℝ)

/-- A change is a smoothed ramp iff it is a `setTargetAtTime` call. -/
def ParamChange.isRamp : ParamChange → Bool
  | .assign _ => false
  | .setTargetAtTime _ _ => true

/-- JS `setMute(on)` (lines 504–507): `this.masterGain.gain.value = on ? 0 :
masterVol` — the write it performs on the output gain. -/
def setMuteChange (masterVol : ℝ) (muteOn : Bool) : ParamChange :=
  .assign (if muteOn then 0 else masterVol)

/-- JS `setFreqMul(pEffNow)` (lines 512–518): the three oscillator-frequency
writes, each a `setTargetAtTime` ramp with time constant `0.015`. -/
def setFreqMulChanges (p : Params) : List ParamChange :=
  [.setTargetAtTime (p.f_vis / 16) 0.015,
   .setTargetAtTime (p.f_vis / 16 * 2) 0.015,
   .setTargetAtTime (p.f_vis / 16 * (1 + p.detune * 0.5)) 0.015]

/-- JS `setFeedback(pEffNow, fbOnNow, fbMulNow)` (lines 519–524): the three
stage feedback-gain writes, each a `setTargetAtTime` ramp with time
constant `0.02`. -/
def setFeedbackChanges (p : Params) (fbOn : Bool) (fbMul : ℝ) : List ParamChange :=
  [.setTargetAtTime (setFeedbackGains p fbOn fbMul).1 0.02,
   .setTargetAtTime (setFeedbackGains p fbOn fbMul).2.1 0.02,
   .setTargetAtTime (setFeedbackGains p fbOn fbMul).2.2 0.02]

/-! ## Visual decay step (`tick`, line 1006) -/

/-- The per-tick decay alpha:
`decay = feedbackOn ? (0.045 + 0.030 * Math.min(1, fbMul)) : 0.075`. -/
def decayAlpha (feedbackOn : Bool) (fbMul : ℝ) : ℝ :=
  if feedbackOn then 0.045 + 0.030 * min 1 fbMul else 0.075

/-! ## Keyboard control handler (lines 696–729) -/

/-- The keys handled by the `keydown` listener. -/
inductive Key
  | keyP | keyR | keyF | keyD
  | comma | period
  | lbrack | rbrack
  | minus | equal
  | keyW | keyK | keyL
  | keyA | keyM

/-- The live UI state the `keydown` handler reads and writes: the boolean
toggles, the four knob scalars (initial values on lines 588–597) and the
canvas raster, modelled as its list of pixel intensities. -/
structure UIState where
  feedbackOn : Bool
  driftOn : Bool
  warpOn : Bool
  fbMul : ℝ
  densityMul : ℝ
  exposure : ℝ
  warpMul : ℝ
  frame : List ℝ

/-- JS `clearHard()` (lines 134–141) as it acts on the raster: every pixel is
painted black (the buffer keeps its size, all intensities become 0). -/
def clearFrame (st : UIState) : UIState :=
  { st with frame := List.replicate st.frame.length 0 }

/-- The `keydown` handler (lines 696–729).  `P` saves a PNG and `A`/`M`
start/mute audio — none of them touches this state; the audio-side effects
of `F`, `,`, `.` (`audio.setFeedback`) are modelled by `setFeedbackChanges`.
`R` (`reroll`, lines 671–693) resamples the parameter record, resets the
drift phase and calls `clearHard()`; only its raster effect is relevant
here. -/
def handleKey (k : Key) (st : UIState) : UIState :=
  match k with
  | .keyP => st
  | .keyR => clearFrame st
  | .keyF => clearFrame { st with feedbackOn := !st.feedbackOn }
  | .keyD => { st with driftOn := !st.driftOn }
  | .comma => { st with fbMul := clamp (st.fbMul - 0.05) 0 1.5 }
  | .period => { st with fbMul := clamp (st.fbMul + 0.05) 0 1.5 }
  | .lbrack => { st with densityMul := clamp (st.densityMul - 0.05) 0.2 2.0 }
  | .rbrack => { st with densityMul := clamp (st.densityMul + 0.05) 0.2 2.0 }
  | .minus => { st with exposure := clamp (st.exposure - 0.05) 0.4 2.0 }
  | .equal => { st with exposure := clamp (st.exposure + 0.05) 0.4 2.0 }
  | .keyW => clearFrame { st with warpOn := !st.warpOn }
  | .keyK => { st with warpMul := clamp (st.warpMul - 0.05) 0 1.6 }
  | .keyL => { st with warpMul := clamp (st.warpMul + 0.05) 0 1.6 }
  | .keyA => st
  | .keyM => st

/-- The initial live-knob values (lines 588–597): `feedbackOn = true`,
`driftOn = true`, `warpOn = true`, `fbMul = 1.05`, `densityMul = 1.25`,
`exposure = 1.25`, `warpMul = 1.0`; the canvas starts hard-cleared. -/
def initialState : UIState :=
  { feedbackOn := true, driftOn := true, warpOn := true,
    fbMul := 1.05, densityMul := 1.25, exposure := 1.25, warpMul := 1.0,
    frame := [] }

/-- The knob-range invariant of claim C10: `fbMul ∈ [0, 1.5]`,
`densityMul ∈ [0.2, 2.0]`, `exposure ∈ [0.4, 2.0]`, `warpMul ∈ [0, 1.6]`. -/
def KnobRanges (st : UIState) : Prop :=
  0 ≤ st.fbMul ∧ st.fbMul ≤ 1.5 ∧
  0.2 ≤ st.densityMul ∧ st.densityMul ≤ 2.0 ∧
  0.4 ≤ st.exposure ∧ st.exposure ≤ 2.0 ∧
  0 ≤ st.warpMul ∧ st.warpMul ≤ 1.6

/-! ## Concrete records used in counterexamples and witnesses -/

/-- A concrete parameter record with every field inside the range sampled by
`makeParams` (`fb3 = 0.8` lies in the sampled band `[0.48, 0.84)`). -/
def cParams : Params :=
  { rare := false, f_vis := 1000, phi := 0, phiOffset := 0.25,
    xSin := 0.95, ySin := 0.95, xTri := 1.2, yTri := 1.2,
    padFrac := 0.10, gain := 0.92, rot := 0.1, shear := 0.05,
    driftCps := 0.001, pmHz := 0.1, pmDepth := 0.003, detune := 0.001,
    osc3Mix := 0.2, osc3Phi := 0.3, osc4Mul := 0.2, osc4Mix := 0.1,
    osc4Phi := 0.4, pixel := 2, fbScale := 1.003, fbRotate := 0.001,
    fbShift := 0.5, ampRate := 0.03, densRate := 0.03,
    phiSpreadBase := 0.015, warpBase := 0.1, warpRate := 0.05,
    warpPhase := 0.2, a := 0.70, b := 0.40, t1 := 0.005, t2 := 0.02,
    t3 := 0.1, fb1 := 0.3, fb2 := 0.4, fb3 := 0.8, warpEff := 0 }

/-- Record `cParams` with the effective warp strength `warpEff = 0.5` set (as
`effective` does when warp is on). -/
def wParams : Params := { cParams with warpEff := 0.5 }

/-! ## Claim theorems -/

/-- C1: for every sample time `t`, drift phase, wall-clock time and
parameter record, `xyAt` returns a pair in `[-1,1]²` — both coordinates are
passed through `tanh` once more before return. -/
theorem xyAt_bounded (t : ℝ) (p : Params) (phiCycles nowSec : ℝ) :
    |(xyAt t p phiCycles nowSec).1| ≤ 1 ∧ |(xyAt t p phiCycles nowSec).2| ≤ 1 :=
  ⟨abs_tanh_le_one _, abs_tanh_le_one _⟩

/-- C2: the Parameter Sampler is pure and deterministic — two invocations on
the identical seed string produce the identical sequence of uniform draws
and bit-identical parameter records (in particular the same base frequency). -/
theorem sampler_deterministic (s₁ s₂ : String) (h : s₁ = s₂) :
    (∀ n, drawsFromString s₁ n = drawsFromString s₂ n) ∧
    paramsFromSeed s₁ = paramsFromSeed s₂ ∧
    (paramsFromSeed s₁).f_vis = (paramsFromSeed s₂).f_vis := by
  subst h
  exact ⟨fun _ => rfl, rfl, rfl⟩

/-- Witness for C2 at the concrete seed string `"abc|0"`. -/
theorem sampler_deterministic_witness :
    drawsFromString "abc|0" 5 = drawsFromString "abc|0" 5 ∧
    (paramsFromSeed "abc|0").f_vis = (paramsFromSeed "abc|0").f_vis :=
  ⟨(sampler_deterministic "abc|0" "abc|0" rfl).1 5,
   (sampler_deterministic "abc|0" "abc|0" rfl).2.2⟩

/-- C4: the base layer's y oscillator argument runs at exactly twice the
frequency of the x argument — `x` is evaluated at `f·t + φ`, `y` at
`2·f·t + (φ + phiOffset)`, for every parameter record (hence unchanged by
reroll) and untouched by the detail/fill layers. -/
theorem base_ratio_invariant (p : Params) (phi t : ℝ) :
    baseArgX p phi t = p.f_vis * t + phi ∧
    baseArgY p phi t = 2 * (p.f_vis * t) + (phi + p.phiOffset) ∧
    baseArgY p phi t - baseArgY p phi 0 =
      2 * (baseArgX p phi t - baseArgX p phi 0) := by
  refine ⟨rfl, by unfold baseArgY; ring, ?_⟩
  unfold baseArgX baseArgY
  ring

/-- Both endpoints of `clamp`: `a ≤ clamp x a b` and `clamp x a b ≤ b`
whenever `a ≤ b`. -/
lemma clamp_mem (x a b : ℝ) (hab : a ≤ b) : a ≤ clamp x a b ∧ clamp x a b ≤ b :=
  ⟨le_max_left _ _, max_le hab (min_le_left _ _)⟩

/-- C3 counterexample: with `fb3 = 0.8` (inside the sampled band
`[0.48, 0.84)`) and feedback multiplier `1.2` (inside the keyboard range
`[0, 1.5]`), stage 3's gain is clamped to exactly `0.95` — not strictly
below `0.95`. -/
theorem stage_gain_counterexample :
    (startGains cParams true 1.2).2.2 = 0.95 ∧
    ¬ (startGains cParams true 1.2).2.2 < 0.95 := by
  have h : (startGains cParams true 1.2).2.2 = 0.95 := by
    show clamp (cParams.fb3 * fbScalar true 1.2) 0 0.95 = 0.95
    rw [show cParams.fb3 = 0.8 from rfl]
    unfold fbScalar clamp
    norm_num [min_def, max_def]
  exact ⟨h, by rw [h]; exact lt_irrefl _⟩

/-- C3 amended: each of the three audio delay stages' feedback gain lies in
the closed interval `[0, 0.95]`, both when the audio graph is constructed
(`startAudio`) and after every live `setFeedback` update — and the two
computations agree. -/
theorem stage_gains_bounded (p : Params) (fbOn : Bool) (fbMul : ℝ) :
    (0 ≤ (startGains p fbOn fbMul).1 ∧ (startGains p fbOn fbMul).1 ≤ 0.95) ∧
    (0 ≤ (startGains p fbOn fbMul).2.1 ∧ (startGains p fbOn fbMul).2.1 ≤ 0.95) ∧
    (0 ≤ (startGains p fbOn fbMul).2.2 ∧ (startGains p fbOn fbMul).2.2 ≤ 0.95) ∧
    startGains p fbOn fbMul = setFeedbackGains p fbOn fbMul :=
  ⟨clamp_mem _ 0 0.95 (by norm_num),
   clamp_mem _ 0 0.95 (by norm_num),
   clamp_mem _ 0 0.95 (by norm_num),
   rfl⟩

/-- Equality of `min 0.05 (max 0 x)` (the form the source computes on line 613) equals
`clamp(x, 0, 0.05)` (the form the claim uses). -/
lemma min_max_eq_clamp (x : ℝ) : min 0.05 (max 0 x) = clamp x 0 0.05 := by
  unfold clamp
  rw [max_min_distrib_left]
  norm_num

/-- C5: in the Running state a drift step with elapsed milliseconds
`now - lastT` sets `driftPhase` to
`(driftPhase + driftCps * clamp(elapsedSeconds, 0, 0.05)) mod 1`, advancing
by at most `driftCps * 0.05` before wrapping; in the Paused state the phase
is unchanged. -/
theorem stepDrift_correct (cps now : ℝ) (st : DriftState) :
    (st.driftOn = true →
      (stepDrift cps now st).driftPhase =
        jsMod (st.driftPhase + cps * clamp ((now - st.lastT) / 1000) 0 0.05) 1) ∧
    (st.driftOn = false →
      (stepDrift cps now st).driftPhase = st.driftPhase) ∧
    (0 ≤ cps →
      cps * min 0.05 (max 0 ((now - st.lastT) / 1000)) ≤ cps * 0.05) := by
  refine ⟨fun h => ?_, fun h => ?_, fun h => ?_⟩
  · simp only [stepDrift, h, if_true, min_max_eq_clamp]
  · simp only [stepDrift, h, Bool.false_eq_true, if_false]
  · exact mul_le_mul_of_nonneg_left (min_le_left _ _) h

/-- Witness for C5: a 10-second wall-clock gap (`now = 10000` ms,
`lastT = 0`) in the Running state is integrated as at most 50 ms, and the
Paused state leaves the phase untouched. -/
theorem stepDrift_correct_witness :
    (stepDrift 2 10000 ⟨0.25, 0, true⟩).driftPhase =
      jsMod (0.25 + 2 * clamp ((10000 - 0) / 1000) 0 0.05) 1 ∧
    2 * min 0.05 (max 0 (((10000 : ℝ) - 0) / 1000)) ≤ 2 * 0.05 ∧
    (stepDrift 2 10000 ⟨0.25, 0, false⟩).driftPhase = 0.25 :=
  ⟨(stepDrift_correct 2 10000 ⟨0.25, 0, true⟩).1 rfl,
   (stepDrift_correct 2 10000 ⟨0.25, 0, true⟩).2.2 (by norm_num),
   (stepDrift_correct 2 10000 ⟨0.25, 0, false⟩).2.1 rfl⟩

/-- C6 counterexample: the code's cross-warp step is not the claimed
`(tanh(x + w·y), tanh(y − w·x))` — at `w = 0.5`, `(x, y) = (1, 0)` the code
produces `tanh(0.92 · 1)` while the claimed formula gives `tanh 1`. -/
theorem warp_formula_counterexample :
    warpStep 0.5 1 0 ≠ warpStepSpec 0.5 1 0 := by
  intro he
  have h1 := congrArg Prod.fst he
  simp only [warpStep, warpStepSpec] at h1
  have hlt : Real.tanh (0.92 * ((1 : ℝ) + 0.5 * 0)) < Real.tanh (1 + 0.5 * 0) :=
    tanh_lt_tanh_of_lt (by norm_num)
  exact absurd h1 (ne_of_lt hlt)

/-- C6 amended: when warp is enabled with effective strength `w > 0`, the
cross-warp step maps the post-linear-transform coordinates `(x, y)` to
`x' = tanh(0.92·(x + w·y))`, `y' = tanh(0.92·(y − w·x))` — a drive factor
`0.92` is applied inside the saturation. -/
theorem warp_cross_step (t : ℝ) (p : Params) (phiCycles nowSec : ℝ)
    (h : 0 < p.warpEff) :
    xyAt t p phiCycles nowSec =
      (Real.tanh (0.78 * Real.tanh (0.92 * ((preWarp t p phiCycles nowSec).1 +
          p.warpEff * (preWarp t p phiCycles nowSec).2))),
       Real.tanh (0.78 * Real.tanh (0.92 * ((preWarp t p phiCycles nowSec).2 -
          p.warpEff * (preWarp t p phiCycles nowSec).1)))) := by
  simp only [xyAt, warpStep]
  rw [if_pos h]

/-- Witness for C6 at `warpEff = 0.5 > 0` and concrete field inputs. -/
theorem warp_cross_step_witness :
    xyAt 0 wParams 0 0 =
      (Real.tanh (0.78 * Real.tanh (0.92 * ((preWarp 0 wParams 0 0).1 +
          wParams.warpEff * (preWarp 0 wParams 0 0).2))),
       Real.tanh (0.78 * Real.tanh (0.92 * ((preWarp 0 wParams 0 0).2 -
          wParams.warpEff * (preWarp 0 wParams 0 0).1)))) :=
  warp_cross_step 0 wParams 0 0 (by norm_num [wParams, cParams])

/-- C7 counterexample: the decay alpha is not inversely related to the live
feedback multiplier — at `m₁ = 0 < m₂ = 1` (feedback on) the alpha at `m₂`
is `0.075 > 0.045`, the alpha at `m₁`. -/
theorem decay_alpha_counterexample :
    (0 : ℝ) < 1 ∧ ¬ decayAlpha true 1 ≤ decayAlpha true 0 := by
  refine ⟨by norm_num, ?_⟩
  unfold decayAlpha
  norm_num

/-- C7 amended: with feedback enabled, the decay alpha is monotonically
nondecreasing in the feedback multiplier (directly, not inversely, related):
`m₁ ≤ m₂` implies `alpha(m₁) ≤ alpha(m₂)`. -/
theorem decay_alpha_monotone (m₁ m₂ : ℝ) (h : m₁ ≤ m₂) :
    decayAlpha true m₁ ≤ decayAlpha true m₂ := by
  unfold decayAlpha
  simp only [if_true]
  have : min 1 m₁ ≤ min 1 m₂ := min_le_min le_rfl h
  linarith

/-- Witness for C7's amended claim at `m₁ = 0 ≤ m₂ = 1`. -/
theorem decay_alpha_monotone_witness :
    decayAlpha true 0 ≤ decayAlpha true 1 :=
  decay_alpha_monotone 0 1 (by norm_num)

/-- A UI state whose raster holds one lit pixel. -/
def frameState : UIState := { initialState with frame := [0.5] }

/-- C8 counterexample: pressing `F` (toggle feedback) — which is neither
reset, resize nor reroll — blanks the frame buffer: a raster holding `[0.5]`
becomes `[0]`. -/
theorem frame_toggle_counterexample :
    (handleKey Key.keyF frameState).frame = [0] ∧
    (handleKey Key.keyF frameState).frame ≠ frameState.frame := by
  have h : (handleKey Key.keyF frameState).frame = [0] := rfl
  refine ⟨h, ?_⟩
  rw [h]
  intro he
  have : (0 : ℝ) = 0.5 := by
    have := List.head_eq_of_cons_eq he
    exact this
  norm_num at this

/-- C8 amended: the frame buffer persists across every knob adjustment and
the drift/audio/screenshot keys, but is blanked not only by reroll (`R`) —
and by resize/reset — but also by the feedback (`F`) and warp (`W`)
toggles. -/
theorem frame_clear_behavior (st : UIState) :
    (handleKey Key.comma st).frame = st.frame ∧
    (handleKey Key.period st).frame = st.frame ∧
    (handleKey Key.lbrack st).frame = st.frame ∧
    (handleKey Key.rbrack st).frame = st.frame ∧
    (handleKey Key.minus st).frame = st.frame ∧
    (handleKey Key.equal st).frame = st.frame ∧
    (handleKey Key.keyK st).frame = st.frame ∧
    (handleKey Key.keyL st).frame = st.frame ∧
    (handleKey Key.keyD st).frame = st.frame ∧
    (handleKey Key.keyP st).frame = st.frame ∧
    (handleKey Key.keyA st).frame = st.frame ∧
    (handleKey Key.keyM st).frame = st.frame ∧
    (handleKey Key.keyR st).frame = List.replicate st.frame.length 0 ∧
    (handleKey Key.keyF st).frame = List.replicate st.frame.length 0 ∧
    (handleKey Key.keyW st).frame = List.replicate st.frame.length 0 :=
  ⟨rfl, rfl, rfl, rfl, rfl, rfl, rfl, rfl, rfl, rfl, rfl, rfl, rfl, rfl, rfl⟩

/-- C9 counterexample: muting writes the output gain by direct value
assignment (`masterGain.gain.value = 0`), not by a smoothed ramp. -/
theorem mute_not_ramped_counterexample :
    (setMuteChange 0.7 true).isRamp = false ∧
    setMuteChange 0.7 true = ParamChange.assign 0 :=
  ⟨rfl, rfl⟩

/-- C9 amended: live oscillator frequencies and stage feedback gains are
updated only through smoothed `setTargetAtTime` ramps, but the mute control
is a direct assignment of the output gain (`0` when muting, `masterVol` when
unmuting). -/
theorem audio_updates_classified (p : Params) (fbOn : Bool)
    (fbMul v : ℝ) (muteOn : Bool) :
    (setFreqMulChanges p).all ParamChange.isRamp = true ∧
    (setFeedbackChanges p fbOn fbMul).all ParamChange.isRamp = true ∧
    setMuteChange v muteOn = ParamChange.assign (if muteOn then 0 else v) :=
  ⟨rfl, rfl, rfl⟩

/-- One key press preserves the knob ranges. -/
lemma knob_step (k : Key) (st : UIState) (h : KnobRanges st) :
    KnobRanges (handleKey k st) := by
  unfold KnobRanges at h ⊢
  obtain ⟨h1, h2, h3, h4, h5, h6, h7, h8⟩ := h
  cases k <;>
    first
      | exact ⟨h1, h2, h3, h4, h5, h6, h7, h8⟩
      | exact ⟨(clamp_mem _ 0 1.5 (by norm_num)).1,
          (clamp_mem _ 0 1.5 (by norm_num)).2, h3, h4, h5, h6, h7, h8⟩
      | exact ⟨h1, h2, (clamp_mem _ 0.2 2.0 (by norm_num)).1,
          (clamp_mem _ 0.2 2.0 (by norm_num)).2, h5, h6, h7, h8⟩
      | exact ⟨h1, h2, h3, h4, (clamp_mem _ 0.4 2.0 (by norm_num)).1,
          (clamp_mem _ 0.4 2.0 (by norm_num)).2, h7, h8⟩
      | exact ⟨h1, h2, h3, h4, h5, h6, (clamp_mem _ 0 1.6 (by norm_num)).1,
          (clamp_mem _ 0 1.6 (by norm_num)).2⟩

/-- C10: after any sequence of key presses (each knob key moves its knob by
`±0.05` through `clamp`), the live knob values stay within
`fbMul ∈ [0, 1.5]`, `densityMul ∈ [0.2, 2.0]`, `exposure ∈ [0.4, 2.0]`,
`warpMul ∈ [0, 1.6]` — every key handler preserves the invariant. -/
theorem knob_ranges_preserved (ks : List Key) (st : UIState)
    (h : KnobRanges st) :
    KnobRanges (ks.foldl (fun s k => handleKey k s) st) := by
  induction ks generalizing st with
  | nil => exact h
  | cons k ks ih => exact ih _ (knob_step k st h)

/-- Witness for C10: the initial knob values satisfy the ranges and a
concrete key sequence keeps them there. -/
theorem knob_ranges_preserved_witness :
    KnobRanges (List.foldl (fun s k => handleKey k s) initialState
      [Key.period, Key.lbrack, Key.keyL, Key.minus, Key.keyF]) :=
  knob_ranges_preserved _ initialState
    (by unfold KnobRanges initialState; norm_num)

end Synthi
